import Mathlib

/-!
Verification of the key-manager / catalogue subsystem of this repository.

The concrete key-type-manager behavior (key type identifier, version,
key-material classification, validation rules, primitive factories,
key-creation) is embedded from
`src/java/src/test/java/com/google/crypto/tink/KeyManagerImplTest.java`
(`TestInternalKeyManager` and `TestInternalKeyManagerWithoutKeyFactory`).
The `KeyManagerImpl` operations themselves are not in the sources given,
so they are modelled from the spec (section 4.1), as marked on each
definition.  The catalogue is embedded from
`src/cc/hybrid/hybrid_decrypt_catalogue.cc`.
-/

/-- Error kinds of the key-manager layer, as discriminated in the spec's
error-handling design (section 7).  Each carries its message. -/
inductive TinkError where
  | parseError (msg : String)
  | invalidKeyError (msg : String)
  | invalidKeyFormatError (msg : String)
  | unsupportedPrimitiveError (msg : String)
  | unsupportedOperationError (msg : String)
deriving DecidableEq, Repr

/-- `hay` contains `needle` as a contiguous substring. -/
def strContains (hay needle : String) : Prop :=
  ∃ pre post : List Char, hay.data = pre ++ needle.data ++ post

theorem strContains_self (s : String) : strContains s s :=
  ⟨[], [], by simp⟩

/-- The key-material classification tags of the data model (section 3). -/
inductive KeyMaterialType where
  | symmetric
  | asymmetricPrivate
  | asymmetricPublic
  | remote
deriving DecidableEq, Repr

/-- The primitive capabilities appearing in the test file: `Aead` and
`FakeAead` are the two factories declared by `TestInternalKeyManager`;
`voidCap` and `integerCap` stand for the `Void.class` / `Integer.class`
capabilities the tests request to observe the unsupported-capability
failure. -/
inductive PrimitiveKind where
  | aead
  | fakeAead
  | voidCap
  | integerCap
deriving DecidableEq, BEq, Repr

/-- A constructed primitive instance.  `aesGcmJce kv` is the
`new AesGcmJce(key.getKeyValue().toByteArray())` construction of the
test's Aead factory; `fakeAead` is the test's `new FakeAead()`. -/
inductive Primitive where
  | aesGcmJce (keyBytes : List Nat)
  | fakeAead
deriving DecidableEq, Repr

/-- The `AesGcmKey` proto message as used by the test file: a key-value
byte string and a version number. -/
structure AesGcmKey where
  keyValue : List Nat
  version : Nat
deriving DecidableEq, Repr

/-- The `AesGcmKeyFormat` proto message as used by the test file: a
requested key size. -/
structure AesGcmKeyFormat where
  keySize : Nat
deriving DecidableEq, Repr

/-- Modelled from the spec: serialization of key material is an external
collaborator, "an opaque byte-array-in/object-out parsing step"
(section 1); this is a concrete invertible encoding of `AesGcmKey`
standing in for proto serialization. -/
def encodeAesGcmKey (k : AesGcmKey) : List Nat :=
  k.version :: k.keyValue

/-- Modelled from the spec: the byte-array-in/object-out parsing step for
`AesGcmKey` (inverse of `encodeAesGcmKey`); the empty byte string parses
to the default instance, as proto parsing of an empty string does in the
test `getPrimitive_ByteString_throwsInvalidKey`. -/
def parseAesGcmKey (b : List Nat) : Except String AesGcmKey :=
  match b with
  | [] => .ok ⟨[], 0⟩
  | v :: rest => .ok ⟨rest, v⟩

/-- Modelled from the spec: concrete invertible encoding of
`AesGcmKeyFormat` standing in for proto serialization. -/
def encodeAesGcmKeyFormat (f : AesGcmKeyFormat) : List Nat :=
  [f.keySize]

/-- Modelled from the spec: the byte-array-in/object-out parsing step for
`AesGcmKeyFormat` (inverse of `encodeAesGcmKeyFormat`); the empty byte
string parses to the default instance, longer inputs are malformed. -/
def parseAesGcmKeyFormat (b : List Nat) : Except String AesGcmKeyFormat :=
  match b with
  | [] => .ok ⟨0⟩
  | [s] => .ok ⟨s⟩
  | _ => .error "malformed AesGcmKeyFormat"

/-- The key-factory part of an internal key manager, mirroring the
`KeyFactory` inner class of the test file.  `createKey` draws its random
bytes from an explicit entropy stream `r`, making the randomness of
`Random.randBytes` an input. -/
structure KeyFactory where
  parseKeyFormat : List Nat → Except String AesGcmKeyFormat
  validateKeyFormat : AesGcmKeyFormat → Except String Unit
  createKey : (Nat → Nat) → AesGcmKeyFormat → AesGcmKey

/-- An internal key manager, mirroring `InternalKeyManager<AesGcmKey>` of
the test file: self-description, parsing, validation, an association
list of primitive factories keyed by capability, and an optional key
factory (`none` for an import-only manager). -/
structure InternalKeyManager where
  keyType : String
  version : Nat
  keyMaterialType : KeyMaterialType
  parseKey : List Nat → Except String AesGcmKey
  validateKey : AesGcmKey → Except String Unit
  factories : List (PrimitiveKind × (AesGcmKey → Primitive))
  keyFactory : Option KeyFactory

/-- The capabilities a manager declares: the keys of its factory list. -/
def InternalKeyManager.declaredCaps (ikm : InternalKeyManager) : List PrimitiveKind :=
  ikm.factories.map Prod.fst

/-- Modelled from the spec: `get_primitive(key_material, requested_capability)`
of `KeyManagerImpl` (section 4.1), which is not in the given sources.
Fails with `UnsupportedPrimitiveError` if the capability is not one the
manager provides (checked first, as the Java implementation rejects an
unsupported capability at `KeyManagerImpl` construction, before any key
bytes are seen); otherwise parses (`ParseError` on malformed bytes),
validates (`InvalidKeyError` carrying the manager-specific reason), and
only then constructs the primitive via the capability's factory. -/
def getPrimitive (ikm : InternalKeyManager) (m : List Nat) (cap : PrimitiveKind) :
    Except TinkError Primitive :=
  match ikm.factories.lookup cap with
  | none => .error (.unsupportedPrimitiveError "requested primitive not supported")
  | some f =>
    match ikm.parseKey m with
    | .error e => .error (.parseError e)
    | .ok k =>
      match ikm.validateKey k with
      | .error r => .error (.invalidKeyError r)
      | .ok _ => .ok (f k)

/-- Modelled from the spec: `new_key(key_format: bytes)` of
`KeyManagerImpl` (section 4.1), which is not in the given sources.
Fails with `UnsupportedOperationError` when the manager is import-only
(no key factory); otherwise parses the format, validates it
(`InvalidKeyFormatError` on failure) and produces fresh key material
from the entropy stream `r`. -/
def newKeyFromBytes (ikm : InternalKeyManager) (r : Nat → Nat) (b : List Nat) :
    Except TinkError AesGcmKey :=
  match ikm.keyFactory with
  | none => .error (.unsupportedOperationError "key generation not supported")
  | some kf =>
    match kf.parseKeyFormat b with
    | .error e => .error (.parseError e)
    | .ok f =>
      match kf.validateKeyFormat f with
      | .error r' => .error (.invalidKeyFormatError r')
      | .ok _ => .ok (kf.createKey r f)

/-- Modelled from the spec: the overload of `new_key` taking an
already-parsed format object, as exercised by `newKey_MessageLite_works`;
identical to `newKeyFromBytes` with the parsing step skipped. -/
def newKeyFromFormat (ikm : InternalKeyManager) (r : Nat → Nat) (f : AesGcmKeyFormat) :
    Except TinkError AesGcmKey :=
  match ikm.keyFactory with
  | none => .error (.unsupportedOperationError "key generation not supported")
  | some kf =>
    match kf.validateKeyFormat f with
    | .error r' => .error (.invalidKeyFormatError r')
    | .ok _ => .ok (kf.createKey r f)

/-- The `{key_type, key_material_type, key_material}` record returned by
`new_key_data` (spec section 4.1); `typeUrl` and `value` follow the Java
`KeyData` field names used in the test file. -/
structure KeyData where
  typeUrl : String
  value : List Nat
  keyMaterialType : KeyMaterialType
deriving DecidableEq, Repr

/-- Modelled from the spec: `new_key_data(key_format: bytes)` of
`KeyManagerImpl` (section 4.1), which is not in the given sources: the
composition of `new_key` plus serialization plus the manager's fixed
`key_material_type` and `key_type` identifier. -/
def newKeyData (ikm : InternalKeyManager) (r : Nat → Nat) (b : List Nat) :
    Except TinkError KeyData :=
  match newKeyFromBytes ikm r b with
  | .error e => .error e
  | .ok k => .ok ⟨ikm.keyType, encodeAesGcmKey k, ikm.keyMaterialType⟩

/-- Modelled from the spec: `does_support(key_type)` of `KeyManagerImpl`
(section 4.1), which is not in the given sources: static
self-description, true exactly on the manager's own key-type identifier,
as the tests `doesSupport_returnsTrue` / `doesSupport_returnsFalse`
exercise it. -/
def doesSupport (ikm : InternalKeyManager) (t : String) : Bool :=
  t == ikm.keyType

/-- `validateKey` of `TestInternalKeyManager`
(KeyManagerImplTest.java, lines 70-76): rejects any key whose key value
is not 16 bytes, with the hand-written reason string. -/
def testValidateKey (k : AesGcmKey) : Except String Unit :=
  if k.keyValue.length ≠ 16 then .error "validateKey(AesGcmKey) failed" else .ok ()

/-- `validateKeyFormat` of the test key factory
(KeyManagerImplTest.java, lines 86-92): rejects any format whose key
size is not 16, with the hand-written reason string. -/
def testValidateKeyFormat (f : AesGcmKeyFormat) : Except String Unit :=
  if f.keySize ≠ 16 then .error "validateKeyFormat(AesGcmKeyFormat) failed" else .ok ()

/-- `Random.randBytes(n)` drawn from an explicit entropy stream: `n`
bytes, the `i`-th being `r i` reduced to a byte. -/
def randBytes (r : Nat → Nat) (n : Nat) : List Nat :=
  (List.range n).map (fun i => r i % 256)

/-- `createKey` of the test key factory (KeyManagerImplTest.java,
lines 100-107): fresh random key value of the requested size, version
set to the manager's version (1). -/
def testCreateKey (r : Nat → Nat) (f : AesGcmKeyFormat) : AesGcmKey :=
  ⟨randBytes r f.keySize, 1⟩

/-- `TestInternalKeyManager` of the test file: key type
`type.googleapis.com/google.crypto.tink.AesGcmKey`, version 1, symmetric
key material, two primitive factories (Aead and FakeAead), and the key
factory above. -/
def testKeyManager : InternalKeyManager where
  keyType := "type.googleapis.com/google.crypto.tink.AesGcmKey"
  version := 1
  keyMaterialType := .symmetric
  parseKey := parseAesGcmKey
  validateKey := testValidateKey
  factories :=
    [(.aead, fun k => .aesGcmJce k.keyValue), (.fakeAead, fun _ => .fakeAead)]
  keyFactory := some ⟨parseAesGcmKeyFormat, testValidateKeyFormat, testCreateKey⟩

/-- `TestInternalKeyManagerWithoutKeyFactory` of the test file
(lines 314-343): same key type, no primitive factories, no key factory
(import-only), vacuous key validation. -/
def testKeyManagerWithoutKeyFactory : InternalKeyManager where
  keyType := "type.googleapis.com/google.crypto.tink.AesGcmKey"
  version := 1
  keyMaterialType := .symmetric
  parseKey := parseAesGcmKey
  validateKey := fun _ => .ok ()
  factories := []
  keyFactory := none

/-- Status codes of `crypto::tink::util::Status` as used by the
catalogue: only `NOT_FOUND` is produced there; `unknownCode` keeps the
code discriminated from a degenerate single-constructor type. -/
inductive StatusCode where
  | notFound
  | unknownCode
deriving DecidableEq, Repr

/-- A non-ok `util::Status`: an error code and a message. -/
structure CatStatus where
  code : StatusCode
  msg : String
deriving DecidableEq, Repr

/-- ASCII lowercasing of a string, char by char: the behavior of
`to_lowercase` from `cc/util/strings.h` (declared but not among the
given sources), which applies `std::tolower` to each character. -/
def toLowercase (s : String) : String :=
  ⟨s.data.map Char.toLower⟩

/-- Modelled from the spec: `EciesAeadHkdfPrivateKeyManager`, the hybrid
decryption key manager registered by the catalogue, is not among the
given sources; only its static self-description (`get_key_type`,
`get_version`, spec section 4.1) is needed here. -/
structure HybridKeyManager where
  keyType : String
  version : Nat
deriving DecidableEq, Repr

/-- Modelled from the spec: `EciesAeadHkdfPrivateKeyManager::kKeyType`,
the fixed key-type identifier of the manager the catalogue serves. -/
def eciesKeyType : String :=
  "type.googleapis.com/google.crypto.tink.EciesAeadHkdfPrivateKey"

/-- Modelled from the spec: the `EciesAeadHkdfPrivateKeyManager`
instance constructed by the catalogue, with version 0. -/
def eciesManager : HybridKeyManager :=
  ⟨eciesKeyType, 0⟩

/-- `CreateKeyManager` of hybrid_decrypt_catalogue.cc (lines 33-43): a
manager exists only for the ECIES private-key type URL; any other
type URL is `NOT_FOUND`. -/
def CreateKeyManager (typeUrl : String) : Except CatStatus HybridKeyManager :=
  if typeUrl = eciesKeyType then
    .ok eciesManager
  else
    .error ⟨.notFound, "No key manager for type_url '" ++ typeUrl ++ "'."⟩

/-- `HybridDecryptCatalogue::GetKeyManager` of
hybrid_decrypt_catalogue.cc (lines 47-64): reject a primitive name whose
lowercased form is not "hybriddecrypt", then look up the manager by
type URL, then reject a manager whose version is below `minVersion`;
every rejection is `NOT_FOUND`. -/
def GetKeyManager (typeUrl primitiveName : String) (minVersion : Nat) :
    Except CatStatus HybridKeyManager :=
  if ¬ (toLowercase primitiveName = "hybriddecrypt") then
    .error ⟨.notFound,
      "This catalogue does not support primitive " ++ primitiveName ++ "."⟩
  else
    match CreateKeyManager typeUrl with
    | .error e => .error e
    | .ok m =>
      if m.version < minVersion then
        .error ⟨.notFound,
          "No key manager for type_url '" ++ typeUrl ++ "' with version at least "
            ++ toString minVersion ++ "."⟩
      else
        .ok m

/-- Any key with exactly 16 key-value bytes, encoded. -/
def sixteenByteKeyBytes : List Nat :=
  encodeAesGcmKey ⟨List.replicate 16 0, 1⟩

theorem testLookup_aead :
    testKeyManager.factories.lookup .aead
      = some (fun k => Primitive.aesGcmJce k.keyValue) := rfl

theorem testLookup_fakeAead :
    testKeyManager.factories.lookup .fakeAead
      = some (fun _ => Primitive.fakeAead) := rfl

theorem testLookup_voidCap :
    testKeyManager.factories.lookup .voidCap = none := rfl

theorem testLookup_integerCap :
    testKeyManager.factories.lookup .integerCap = none := rfl

theorem mem_testDeclaredCaps (cap : PrimitiveKind) :
    cap ∈ testKeyManager.declaredCaps ↔ (cap = .aead ∨ cap = .fakeAead) := by
  cases cap <;> simp [InternalKeyManager.declaredCaps, testKeyManager]

/-- C1: for every key material `m` that fails the manager's
`validate_key` with reason R, `get_primitive(m, cap)` (for a declared
capability `cap`) fails with `InvalidKeyError` whose message contains R,
and — the result being an error — no primitive is returned. -/
theorem c1_invalidKey_getPrimitive_fails (m : List Nat) (cap : PrimitiveKind)
    (k : AesGcmKey) (R : String)
    (hcap : cap ∈ testKeyManager.declaredCaps)
    (hparse : testKeyManager.parseKey m = .ok k)
    (hval : testKeyManager.validateKey k = .error R) :
    ∃ msg, getPrimitive testKeyManager m cap = .error (.invalidKeyError msg) ∧
      strContains msg R := by
  have hcap' : cap = .aead ∨ cap = .fakeAead := by
    simpa [InternalKeyManager.declaredCaps, testKeyManager] using hcap
  have hp : parseAesGcmKey m = .ok k := hparse
  have hv : testValidateKey k = .error R := hval
  refine ⟨R, ?_, strContains_self R⟩
  rcases hcap' with h | h <;> subst h <;>
    simp [getPrimitive, testKeyManager, List.lookup, hp, hv] <;> rfl

/-- Witness for C1 at the default instance (empty key material), whose
empty key value fails validation. -/
theorem c1_invalidKey_getPrimitive_fails_witness :
    PrimitiveKind.aead ∈ testKeyManager.declaredCaps ∧
    testKeyManager.parseKey [] = .ok ⟨[], 0⟩ ∧
    testKeyManager.validateKey ⟨[], 0⟩ = .error "validateKey(AesGcmKey) failed" ∧
    ∃ msg, getPrimitive testKeyManager [] .aead = .error (.invalidKeyError msg) ∧
      strContains msg "validateKey(AesGcmKey) failed" :=
  ⟨by simp [InternalKeyManager.declaredCaps, testKeyManager], rfl, rfl,
    c1_invalidKey_getPrimitive_fails [] .aead ⟨[], 0⟩ _
      (by simp [InternalKeyManager.declaredCaps, testKeyManager]) rfl rfl⟩

/-- C2: an import-only manager (no key factory) fails every `new_key`
and `new_key_data` call with `UnsupportedOperationError`, regardless of
the key-format bytes or format object passed. -/
theorem c2_importOnly_unsupportedOperation (b : List Nat) (f : AesGcmKeyFormat)
    (r : Nat → Nat) :
    newKeyFromBytes testKeyManagerWithoutKeyFactory r b
        = .error (.unsupportedOperationError "key generation not supported") ∧
    newKeyFromFormat testKeyManagerWithoutKeyFactory r f
        = .error (.unsupportedOperationError "key generation not supported") ∧
    newKeyData testKeyManagerWithoutKeyFactory r b
        = .error (.unsupportedOperationError "key generation not supported") :=
  ⟨rfl, rfl, rfl⟩

/-- C3: for every key format accepted by `validate_key_format`,
key generation succeeds, the generated key passes `validate_key`, and
the generated key material's effective size (its key-value length)
equals the size requested in the format. -/
theorem c3_generate_validate_roundTrip (f : AesGcmKeyFormat) (r : Nat → Nat)
    (hf : testValidateKeyFormat f = .ok ()) :
    ∃ k, newKeyFromFormat testKeyManager r f = .ok k ∧
      testValidateKey k = .ok () ∧
      k.keyValue.length = f.keySize := by
  have h16 : f.keySize = 16 := by
    by_contra h
    simp [testValidateKeyFormat, h] at hf
  refine ⟨testCreateKey r f, ?_, ?_, ?_⟩
  · simp [newKeyFromFormat, testKeyManager, hf]
  · simp [testValidateKey, testCreateKey, randBytes, h16]
  · simp [testCreateKey, randBytes]

/-- Witness for C3 at the 16-byte format and the all-zero entropy
stream. -/
theorem c3_generate_validate_roundTrip_witness :
    testValidateKeyFormat ⟨16⟩ = .ok () ∧
    ∃ k, newKeyFromFormat testKeyManager (fun _ => 0) ⟨16⟩ = .ok k ∧
      testValidateKey k = .ok () ∧
      k.keyValue.length = (16 : Nat) :=
  ⟨rfl, c3_generate_validate_roundTrip ⟨16⟩ (fun _ => 0) rfl⟩

/-- C4: on valid key material, `get_primitive(m, cap)` succeeds exactly
when `cap` is one of the manager's declared capabilities; an undeclared
capability fails with `UnsupportedPrimitiveError`; and a manager
declaring two capabilities (Aead and the testing FakeAead) yields a
primitive for each, selected by capability identity. -/
theorem c4_capability_selection (m : List Nat) (k : AesGcmKey)
    (hparse : testKeyManager.parseKey m = .ok k)
    (hval : testKeyManager.validateKey k = .ok ()) :
    (∀ cap : PrimitiveKind,
      (∃ p, getPrimitive testKeyManager m cap = .ok p) ↔
        cap ∈ testKeyManager.declaredCaps) ∧
    (∀ cap : PrimitiveKind, cap ∉ testKeyManager.declaredCaps →
      ∃ msg, getPrimitive testKeyManager m cap
        = .error (.unsupportedPrimitiveError msg)) ∧
    getPrimitive testKeyManager m .aead = .ok (.aesGcmJce k.keyValue) ∧
    getPrimitive testKeyManager m .fakeAead = .ok .fakeAead := by
  refine ⟨?_, ?_, ?_, ?_⟩
  · intro cap
    rw [mem_testDeclaredCaps]
    cases cap <;>
      simp [getPrimitive, testLookup_aead, testLookup_fakeAead,
        testLookup_voidCap, testLookup_integerCap, hparse, hval]
  · intro cap hcap
    rw [mem_testDeclaredCaps] at hcap
    cases cap
    · exact absurd (Or.inl rfl) hcap
    · exact absurd (Or.inr rfl) hcap
    · exact ⟨"requested primitive not supported",
        by simp [getPrimitive, testLookup_voidCap]⟩
    · exact ⟨"requested primitive not supported",
        by simp [getPrimitive, testLookup_integerCap]⟩
  · simp [getPrimitive, testLookup_aead, hparse, hval]
  · simp [getPrimitive, testLookup_fakeAead, hparse, hval]

/-- Witness for C4 at a 16-byte key. -/
theorem c4_capability_selection_witness :
    testKeyManager.parseKey sixteenByteKeyBytes = .ok ⟨List.replicate 16 0, 1⟩ ∧
    testKeyManager.validateKey ⟨List.replicate 16 0, 1⟩ = .ok () ∧
    getPrimitive testKeyManager sixteenByteKeyBytes .aead
      = .ok (.aesGcmJce (List.replicate 16 0)) ∧
    getPrimitive testKeyManager sixteenByteKeyBytes .fakeAead = .ok .fakeAead :=
  ⟨rfl, rfl,
    (c4_capability_selection sixteenByteKeyBytes ⟨List.replicate 16 0, 1⟩ rfl rfl).2.2⟩

/-- C5: for every key-format input rejected by `validate_key_format`,
both `new_key` and `new_key_data` fail with `InvalidKeyFormatError`
whose message contains the validation reason, and — the results being
errors — no key material is produced. -/
theorem c5_invalidFormat_newKey_fails (b : List Nat) (f : AesGcmKeyFormat)
    (R : String) (r : Nat → Nat)
    (hparse : parseAesGcmKeyFormat b = .ok f)
    (hval : testValidateKeyFormat f = .error R) :
    (∃ msg, newKeyFromBytes testKeyManager r b
        = .error (.invalidKeyFormatError msg) ∧ strContains msg R) ∧
    (∃ msg, newKeyData testKeyManager r b
        = .error (.invalidKeyFormatError msg) ∧ strContains msg R) := by
  constructor <;>
    exact ⟨R,
      by simp [newKeyFromBytes, newKeyData, testKeyManager, hparse, hval],
      strContains_self R⟩

/-- Witness for C5 at the 17-byte format rejected by the test's
`validateKeyFormat`. -/
theorem c5_invalidFormat_newKey_fails_witness :
    parseAesGcmKeyFormat [17] = .ok ⟨17⟩ ∧
    testValidateKeyFormat ⟨17⟩
      = .error "validateKeyFormat(AesGcmKeyFormat) failed" ∧
    (∃ msg, newKeyFromBytes testKeyManager (fun _ => 0) [17]
        = .error (.invalidKeyFormatError msg) ∧
      strContains msg "validateKeyFormat(AesGcmKeyFormat) failed") :=
  ⟨rfl, rfl,
    (c5_invalidFormat_newKey_fails [17] ⟨17⟩ _ (fun _ => 0) rfl rfl).1⟩

/-- C6: for every well-formed key format, `new_key_data` returns a
record whose `key_type` field is the manager's fixed key-type identifier
and whose `key_material_type` field is the manager's fixed key-material
classification (SYMMETRIC). -/
theorem c6_newKeyData_fixedFields (b : List Nat) (f : AesGcmKeyFormat)
    (r : Nat → Nat)
    (hparse : parseAesGcmKeyFormat b = .ok f)
    (hval : testValidateKeyFormat f = .ok ()) :
    ∃ kd, newKeyData testKeyManager r b = .ok kd ∧
      kd.typeUrl = testKeyManager.keyType ∧
      kd.typeUrl = "type.googleapis.com/google.crypto.tink.AesGcmKey" ∧
      kd.keyMaterialType = testKeyManager.keyMaterialType ∧
      kd.keyMaterialType = .symmetric := by
  refine ⟨⟨testKeyManager.keyType, encodeAesGcmKey (testCreateKey r f),
    testKeyManager.keyMaterialType⟩, ?_, rfl, rfl, rfl, rfl⟩
  simp [newKeyData, newKeyFromBytes, testKeyManager, hparse, hval]

/-- Witness for C6 at the 16-byte format. -/
theorem c6_newKeyData_fixedFields_witness :
    parseAesGcmKeyFormat [16] = .ok ⟨16⟩ ∧
    testValidateKeyFormat ⟨16⟩ = .ok () ∧
    ∃ kd, newKeyData testKeyManager (fun _ => 0) [16] = .ok kd ∧
      kd.typeUrl = testKeyManager.keyType ∧
      kd.typeUrl = "type.googleapis.com/google.crypto.tink.AesGcmKey" ∧
      kd.keyMaterialType = testKeyManager.keyMaterialType ∧
      kd.keyMaterialType = .symmetric :=
  ⟨rfl, rfl, c6_newKeyData_fixedFields [16] ⟨16⟩ (fun _ => 0) rfl rfl⟩

/-- C8: for every valid key format, key generation works through both
entry points — the serialized-bytes form and the parsed-object form
agree — and the generated key material is accepted by `get_primitive`. -/
theorem c8_newKey_entryPoints_agree (f : AesGcmKeyFormat) (r : Nat → Nat)
    (hval : testValidateKeyFormat f = .ok ()) :
    newKeyFromBytes testKeyManager r (encodeAesGcmKeyFormat f)
        = newKeyFromFormat testKeyManager r f ∧
    ∃ k, newKeyFromFormat testKeyManager r f = .ok k ∧
      ∃ p, getPrimitive testKeyManager (encodeAesGcmKey k) .aead = .ok p := by
  have h16 : f.keySize = 16 := by
    by_contra h
    simp [testValidateKeyFormat, h] at hval
  refine ⟨?_, testCreateKey r f, ?_, .aesGcmJce (testCreateKey r f).keyValue, ?_⟩
  · simp [newKeyFromBytes, newKeyFromFormat, testKeyManager,
      encodeAesGcmKeyFormat, parseAesGcmKeyFormat]
  · simp [newKeyFromFormat, testKeyManager, hval]
  · have hpk : testKeyManager.parseKey (encodeAesGcmKey (testCreateKey r f))
        = .ok (testCreateKey r f) := rfl
    have hvk : testKeyManager.validateKey (testCreateKey r f) = .ok () := by
      show testValidateKey (testCreateKey r f) = .ok ()
      simp [testValidateKey, testCreateKey, randBytes, h16]
    simp [getPrimitive, testLookup_aead, hpk, hvk]

/-- Witness for C8 at the 16-byte format and the all-zero entropy
stream. -/
theorem c8_newKey_entryPoints_agree_witness :
    testValidateKeyFormat ⟨16⟩ = .ok () ∧
    newKeyFromBytes testKeyManager (fun _ => 0) (encodeAesGcmKeyFormat ⟨16⟩)
        = newKeyFromFormat testKeyManager (fun _ => 0) ⟨16⟩ :=
  ⟨rfl, (c8_newKey_entryPoints_agree ⟨16⟩ (fun _ => 0) rfl).1⟩

/-- C9: `does_support(t)` is true exactly when `t` equals the manager's
own fixed key-type identifier (the value `get_key_type` returns), and
false for every other identifier. -/
theorem c9_doesSupport_iff_own_keyType (t : String) :
    doesSupport testKeyManager t = true ↔ t = testKeyManager.keyType := by
  simp [doesSupport]

theorem toLowercase_hybriddecrypt :
    toLowercase "hybriddecrypt" = "hybriddecrypt" := rfl

/-- C7: the catalogue's `GetKeyManager` succeeds exactly when the
requested primitive name lowercases to "hybriddecrypt", a manager exists
for the type URL, and that manager's version reaches `minVersion`; every
failure carries the NOT_FOUND code; and a returned manager's version is
at least `minVersion`. -/
theorem c7_getKeyManager_notFound_cases (t p : String) (v : Nat) :
    ((∃ m, GetKeyManager t p v = .ok m) ↔
      (toLowercase p = "hybriddecrypt" ∧ t = eciesKeyType ∧
        v ≤ eciesManager.version)) ∧
    (∀ e, GetKeyManager t p v = .error e → e.code = .notFound) ∧
    (∀ m, GetKeyManager t p v = .ok m → v ≤ m.version) := by
  by_cases hp : toLowercase p = "hybriddecrypt" <;>
    by_cases ht : t = eciesKeyType <;>
      by_cases hv : eciesManager.version < v <;>
        simp_all [GetKeyManager, CreateKeyManager, eciesManager]
  all_goals omega

/-- Witness for C7: the registered type URL with the canonical primitive
name and minimum version 0 yields a manager. -/
theorem c7_getKeyManager_notFound_cases_witness :
    (toLowercase "HybridDecrypt" = "hybriddecrypt" ∧
      eciesKeyType = eciesKeyType ∧ 0 ≤ eciesManager.version) ∧
    ∃ m, GetKeyManager eciesKeyType "HybridDecrypt" 0 = .ok m :=
  ⟨⟨rfl, rfl, Nat.zero_le _⟩,
    (c7_getKeyManager_notFound_cases eciesKeyType "HybridDecrypt" 0).1.mpr
      ⟨rfl, rfl, Nat.zero_le _⟩⟩

/-- C10: the catalogue matches the primitive name case-insensitively: a
name whose lowercased form is "hybriddecrypt" behaves exactly like the
canonical name (so "HybridDecrypt" and "HYBRIDDECRYPT" are accepted),
and a name is rejected on name grounds only when its lowercased form
differs. -/
theorem c10_primitiveName_caseInsensitive :
    (∀ t p v, toLowercase p = "hybriddecrypt" →
      GetKeyManager t p v = GetKeyManager t "hybriddecrypt" v) ∧
    (∀ t p v, toLowercase p ≠ "hybriddecrypt" →
      GetKeyManager t p v = .error ⟨.notFound,
        "This catalogue does not support primitive " ++ p ++ "."⟩) ∧
    GetKeyManager eciesKeyType "HybridDecrypt" 0 = .ok eciesManager ∧
    GetKeyManager eciesKeyType "HYBRIDDECRYPT" 0 = .ok eciesManager := by
  refine ⟨?_, ?_, rfl, rfl⟩
  · intro t p v h
    simp [GetKeyManager, h, toLowercase_hybriddecrypt]
  · intro t p v h
    simp [GetKeyManager, h]

/-- Witness for C10 at a mixed-capitalization primitive name. -/
theorem c10_primitiveName_caseInsensitive_witness :
    toLowercase "HyBrIdDeCrYpT" = "hybriddecrypt" ∧
    GetKeyManager eciesKeyType "HyBrIdDeCrYpT" 2
      = GetKeyManager eciesKeyType "hybriddecrypt" 2 :=
  ⟨rfl, c10_primitiveName_caseInsensitive.1 eciesKeyType "HyBrIdDeCrYpT" 2 rfl⟩
